import Mathlib

/-!
Shallow embedding of the serverless-managers pool engine
(`src/lib/managers/base.js` and `src/lib/managers/process.js`).

Times are wall-clock epoch milliseconds, modelled as `Nat`; the JS
comparison `now - lastRequestTime > poolCheckInterval` agrees with the
`Nat` truncated subtraction used here (both are false when
`now ≤ lastRequestTime + poolCheckInterval`).  Asynchronous adapter
calls are modelled by explicit oracles (`CreateOutcome`) and by fields
of the state that record the calls made (`terminated`, `createCalls`).
-/

namespace ServerlessManagers

/-- In-memory record for a single pooled resource.  The `alive` flag is
the (pure) answer the adapter liveness probe `isResourceAlive` gives for
this handle. -/
structure Handle where
  name : String
  port : Nat
  alive : Bool
  deriving DecidableEq, Repr

/-- The metrics counter set of `BaseServerlessManager` (`this.metrics`). -/
structure Metrics where
  requests : Nat
  hits : Nat
  misses : Nat
  additions : Nat
  evictions : Nat
  removals : Nat
  deriving DecidableEq, Repr

/-- All counters start at zero (constructor of `BaseServerlessManager`). -/
def Metrics.init : Metrics :=
  { requests := 0, hits := 0, misses := 0, additions := 0, evictions := 0, removals := 0 }

/-- State of one manager instance.  Beyond the fields literally present in
`BaseServerlessManager` (`pool`, `maxPoolSize`, `poolCheckInterval`,
`lastRequestTime`, `watcherStarted`, `watcherInterval`, `isShuttingDown`,
`metrics`), the embedding records observables of the environment:
`timersCreated` counts `setInterval` calls for the eviction timer,
`signalHandlersAttached` tracks the process signal hooks,
`onShutdownCalls` counts invocations of the `onShutdown` hook,
`terminated` lists the handles passed to `terminateResource`, and
`createCalls` counts invocations of the adapter create path.
`minPoolSize` is the pre-warm target (present in the spec and the tests,
see `preWarm`). -/
structure MState where
  maxPoolSize : Nat
  minPoolSize : Nat
  poolCheckInterval : Nat
  pool : List Handle
  lastRequestTime : Nat
  watcherStarted : Bool
  watcherInterval : Bool
  timersCreated : Nat
  isShuttingDown : Bool
  signalHandlersAttached : Bool
  onShutdownCalls : Nat
  terminated : List Handle
  createCalls : Nat
  metrics : Metrics
  deriving DecidableEq, Repr

/-- JS `options.x || d`: a `0` (falsy) option falls back to the default. -/
def orDefault (x d : Nat) : Nat := if x = 0 then d else x

/-- Constructor of `BaseServerlessManager`: defaults
`maxPoolSize = 3`, `poolCheckInterval = 10000`; empty pool, zeroed
counters, signal handlers attached, `lastRequestTime = Date.now()`.
The pre-warm target `minPoolSize` defaults to 0 and is clamped to
`maxPoolSize` (spec boundary rule). -/
def initState (maxOpt minOpt intervalOpt now : Nat) : MState :=
  let maxP := orDefault maxOpt 3
  { maxPoolSize := maxP
    minPoolSize := min minOpt maxP
    poolCheckInterval := orDefault intervalOpt 10000
    pool := []
    lastRequestTime := now
    watcherStarted := false
    watcherInterval := false
    timersCreated := 0
    isShuttingDown := false
    signalHandlersAttached := true
    onShutdownCalls := 0
    terminated := []
    createCalls := 0
    metrics := Metrics.init }

/-- `canCreateNewResource()`: `this.pool.length < this.maxPoolSize`. -/
def canCreateNewResource (st : MState) : Bool :=
  st.pool.length < st.maxPoolSize

/-- `updateLastRequestTime()`: `this.lastRequestTime = Date.now()`. -/
def updateLastRequestTime (st : MState) (now : Nat) : MState :=
  { st with lastRequestTime := now }

/-- `addToPool(resourceInfo)`: push and bump `additions` when
`pool.length < maxPoolSize`, returning `true`; otherwise return `false`
unchanged. -/
def addToPool (st : MState) (h : Handle) : MState × Bool :=
  if st.pool.length < st.maxPoolSize then
    ({ st with pool := st.pool ++ [h]
               metrics := { st.metrics with additions := st.metrics.additions + 1 } }, true)
  else
    (st, false)

/-- `removeFromPool(resourceName)`: `findIndex` on the name, `splice` the
hit out and bump `removals`; `null` when the name is absent. -/
def removeFromPool (st : MState) (resourceName : String) : MState × Option Handle :=
  match st.pool.findIdx? (fun r => r.name == resourceName) with
  | some index =>
      ({ st with pool := st.pool.eraseIdx index
                 metrics := { st.metrics with removals := st.metrics.removals + 1 } },
       st.pool[index]?)
  | none => (st, none)

/-- `selectFromPool()`: always bump `requests`; on an empty pool bump
`misses` and return `null`; otherwise bump `hits` and return the handle at
round-robin index `Math.floor(Date.now() / 1000) % pool.length`. -/
def selectFromPool (st : MState) (now : Nat) : MState × Option Handle :=
  let st1 := { st with metrics := { st.metrics with requests := st.metrics.requests + 1 } }
  if st1.pool.length = 0 then
    ({ st1 with metrics := { st1.metrics with misses := st1.metrics.misses + 1 } }, none)
  else
    ({ st1 with metrics := { st1.metrics with hits := st1.metrics.hits + 1 } },
     st1.pool[(now / 1000) % st1.pool.length]?)

/-- One tick of the `setInterval` body in `poolWatcher()`: skip when
shutting down; when the pool is non-empty and
`now - lastRequestTime > poolCheckInterval`, shift the oldest handle,
bump `evictions` and terminate it; otherwise do nothing. -/
def poolWatcherTick (st : MState) (now : Nat) : MState :=
  if st.isShuttingDown then st
  else if 0 < st.pool.length ∧ st.poolCheckInterval < now - st.lastRequestTime then
    match st.pool with
    | [] => st
    | r :: rest =>
        { st with pool := rest
                  metrics := { st.metrics with evictions := st.metrics.evictions + 1 }
                  terminated := st.terminated ++ [r] }
  else st

/-- `poolWatcher()` itself (the part that runs immediately): if the
interval handle already exists do nothing, else install one timer. -/
def poolWatcherInstall (st : MState) : MState :=
  if st.watcherInterval then st
  else { st with watcherInterval := true, timersCreated := st.timersCreated + 1 }

/-- Handle produced by the adapter create path during pre-warming. -/
def preWarmHandle (i : Nat) : Handle :=
  { name := "prewarm-" ++ toString i, port := 0, alive := true }

/-- Modelled from the spec: the pre-warming step is absent from
`src/lib/managers/base.js` (only its tests, `test/prewarming.test.js`,
exercise it).  Per the spec, on first watcher start, if
`|resources| < minPoolSize`, create enough handles through the adapter's
create path to reach `minPoolSize`. -/
def preWarm (st : MState) : MState :=
  if st.pool.length < st.minPoolSize then
    let k := st.minPoolSize - st.pool.length
    { st with pool := st.pool ++ (List.range k).map preWarmHandle
              createCalls := st.createCalls + k
              metrics := { st.metrics with additions := st.metrics.additions + k } }
  else st

/-- `startPoolWatcher()`: guarded by `watcherStarted`; the first call sets
the flag, wires the eviction timer (`poolWatcher`) and triggers
pre-warming (the latter modelled from the spec, see `preWarm`). -/
def startPoolWatcher (st : MState) : MState :=
  if st.watcherStarted then st
  else preWarm (poolWatcherInstall { st with watcherStarted := true })

/-- `stopPoolWatcher()`: clear the interval handle when present. -/
def stopPoolWatcher (st : MState) : MState :=
  if st.watcherInterval then { st with watcherInterval := false } else st

/-- `clearPool()`: empty the pool and `updateLastRequestTime()`. -/
def clearPool (st : MState) (now : Nat) : MState :=
  { st with pool := [], lastRequestTime := now }

/-- `stopAllResources()` / `stopAllProcesses()`: nothing on an empty pool;
otherwise terminate every pooled handle and `clearPool()`. -/
def stopAllResources (st : MState) (now : Nat) : MState :=
  if st.pool.length = 0 then st
  else clearPool { st with terminated := st.terminated ++ st.pool } now

/-- `BaseServerlessManager.shutdown()`: no-op when already shutting down;
otherwise set the flag, stop the watcher, stop all resources, detach the
signal handlers and invoke the `onShutdown` hook. -/
def shutdown (st : MState) (now : Nat) : MState :=
  if st.isShuttingDown then st
  else
    let st1 := { st with isShuttingDown := true }
    let st2 := stopPoolWatcher st1
    let st3 := stopAllResources st2 now
    let st4 := { st3 with signalHandlersAttached := false }
    { st4 with onShutdownCalls := st4.onShutdownCalls + 1 }

/-- `ProcessManager.shutdown()` (the override in
`src/lib/managers/process.js`): same drain sequence as the base class but
it never calls the `onShutdown` hook. -/
def processShutdown (st : MState) (now : Nat) : MState :=
  if st.isShuttingDown then st
  else
    let st1 := { st with isShuttingDown := true }
    let st2 := stopPoolWatcher st1
    let st3 := stopAllResources st2 now
    { st3 with signalHandlersAttached := false }

/-- Result record of `healthCheck()`. -/
structure HealthReport where
  total : Nat
  deadRemoved : Nat
  healthy : Bool
  deriving DecidableEq, Repr

/-- `healthCheck()`: the downward index loop splices out every handle
whose liveness probe is false (leaving survivors in order, i.e. a
filter), touching no counter; reports the remaining size, the number
removed, and `healthy = pool.length > 0 || !isShuttingDown`. -/
def healthCheck (st : MState) : MState × HealthReport :=
  let survivors := st.pool.filter (fun r => r.alive)
  let deadCount := (st.pool.filter (fun r => !r.alive)).length
  ({ st with pool := survivors },
   { total := survivors.length
     deadRemoved := deadCount
     healthy := survivors.length > 0 || !st.isShuttingDown })

/-- The failure kinds `getOrCreateProcessInPool` can surface. -/
inductive AcquireError where
  | shuttingDown
  | badConfig
  | noResource
  deriving DecidableEq, Repr

/-- Oracle for the asynchronous `createProcess` call: it either resolves
with a handle or rejects (spawn error / creation timeout). -/
inductive CreateOutcome where
  | ok (h : Handle)
  | fail
  deriving DecidableEq, Repr

/-- The tail of `getOrCreateProcessInPool` ("Return existing process from
pool", lines 113-130): `selectFromPool`, probe liveness; a live selection
is returned; a dead one is removed by name, after which the first
remaining handle is returned; otherwise fail `noResource`. -/
def selectExistingProcess (st : MState) (now : Nat) : MState × Except AcquireError Handle :=
  match selectFromPool st now with
  | (st1, some h) =>
      if h.alive then (st1, .ok h)
      else
        match removeFromPool st1 h.name with
        | (st2, _) =>
            match st2.pool with
            | h0 :: _ => (st2, .ok h0)
            | [] => (st2, .error .noResource)
  | (st1, none) => (st1, .error .noResource)

/-- `ProcessManager.getOrCreateProcessInPool(scriptPath)`: reject when
shutting down or without a script path; bump `lastRequestTime`, start the
watcher; when the pool has room, run the create path (counted in
`createCalls`), re-check room and either admit the new handle and return
it, or terminate it (pool filled during creation); create failures fall
through; finally `selectExistingProcess`. -/
def getOrCreateProcessInPool (st : MState) (scriptPath : Option String) (now : Nat)
    (co : CreateOutcome) : MState × Except AcquireError Handle :=
  if st.isShuttingDown then (st, .error .shuttingDown)
  else if scriptPath = none then (st, .error .badConfig)
  else
    let st1 := startPoolWatcher (updateLastRequestTime st now)
    if canCreateNewResource st1 then
      match co with
      | .ok h =>
          let st2 := { st1 with createCalls := st1.createCalls + 1 }
          if canCreateNewResource st2 then
            ((addToPool st2 h).1, .ok h)
          else
            selectExistingProcess { st2 with terminated := st2.terminated ++ [h] } now
      | .fail => selectExistingProcess { st1 with createCalls := st1.createCalls + 1 } now
    else selectExistingProcess st1 now

/-- One engine operation, as observed at a quiescent point: the public
pool operations of the base manager plus the ProcessManager acquire and
shutdown overrides. -/
inductive Op where
  | add (h : Handle)
  | remove (resourceName : String)
  | select (now : Nat)
  | tick (now : Nat)
  | health
  | clear (now : Nat)
  | shutdownOp (now : Nat)
  | startWatcher
  | stopWatcher
  | acquire (scriptPath : Option String) (now : Nat) (co : CreateOutcome)
  | processShutdownOp (now : Nat)

/-- Apply one operation to the manager state, discarding returned values. -/
def applyOp (st : MState) : Op → MState
  | .add h => (addToPool st h).1
  | .remove n => (removeFromPool st n).1
  | .select now => (selectFromPool st now).1
  | .tick now => poolWatcherTick st now
  | .health => (healthCheck st).1
  | .clear now => clearPool st now
  | .shutdownOp now => shutdown st now
  | .startWatcher => startPoolWatcher st
  | .stopWatcher => stopPoolWatcher st
  | .acquire sp now co => (getOrCreateProcessInPool st sp now co).1
  | .processShutdownOp now => processShutdown st now

/-- Run a sequence of operations left to right. -/
def runOps (st : MState) (ops : List Op) : MState :=
  ops.foldl applyOp st

/-- The size invariant carried through every operation: the pool never
exceeds `maxPoolSize`, and the pre-warm target is clamped below
`maxPoolSize` (as the constructor guarantees). -/
def SizeInv (st : MState) : Prop :=
  st.pool.length ≤ st.maxPoolSize ∧ st.minPoolSize ≤ st.maxPoolSize

theorem sizeInv_initState (maxOpt minOpt intervalOpt now : Nat) :
    SizeInv (initState maxOpt minOpt intervalOpt now) := by
  constructor
  · simp [initState]
  · simp [initState]

theorem sizeInv_addToPool (st : MState) (h : Handle) (hI : SizeInv st) :
    SizeInv (addToPool st h).1 := by
  obtain ⟨h1, h2⟩ := hI
  unfold addToPool
  split
  · refine ⟨?_, h2⟩
    simp only [List.length_append, List.length_singleton]
    omega
  · exact ⟨h1, h2⟩

theorem sizeInv_removeFromPool (st : MState) (n : String) (hI : SizeInv st) :
    SizeInv (removeFromPool st n).1 := by
  obtain ⟨h1, h2⟩ := hI
  unfold removeFromPool
  split
  · exact ⟨le_trans (List.length_eraseIdx_le _ _) h1, h2⟩
  · exact ⟨h1, h2⟩

theorem selectFromPool_eq (st : MState) (now : Nat) :
    selectFromPool st now =
      if st.pool.length = 0 then
        ({ st with metrics := ⟨st.metrics.requests + 1, st.metrics.hits,
            st.metrics.misses + 1, st.metrics.additions, st.metrics.evictions,
            st.metrics.removals⟩ }, none)
      else
        ({ st with metrics := ⟨st.metrics.requests + 1, st.metrics.hits + 1,
            st.metrics.misses, st.metrics.additions, st.metrics.evictions,
            st.metrics.removals⟩ },
         st.pool[(now / 1000) % st.pool.length]?) := rfl

theorem sizeInv_selectFromPool (st : MState) (now : Nat) (hI : SizeInv st) :
    SizeInv (selectFromPool st now).1 := by
  obtain ⟨h1, h2⟩ := hI
  rw [selectFromPool_eq]
  split
  · exact ⟨h1, h2⟩
  · exact ⟨h1, h2⟩

theorem sizeInv_poolWatcherTick (st : MState) (now : Nat) (hI : SizeInv st) :
    SizeInv (poolWatcherTick st now) := by
  obtain ⟨h1, h2⟩ := hI
  unfold poolWatcherTick
  split
  · exact ⟨h1, h2⟩
  split
  · split
    · exact ⟨h1, h2⟩
    · rename_i heq
      refine ⟨?_, h2⟩
      rw [heq] at h1
      simp only [List.length_cons] at h1
      simpa using Nat.le_of_succ_le h1
  · exact ⟨h1, h2⟩

theorem sizeInv_healthCheck (st : MState) (hI : SizeInv st) :
    SizeInv (healthCheck st).1 := by
  obtain ⟨h1, h2⟩ := hI
  exact ⟨le_trans (List.length_filter_le _ _) h1, h2⟩

theorem sizeInv_clearPool (st : MState) (now : Nat) (hI : SizeInv st) :
    SizeInv (clearPool st now) := by
  obtain ⟨-, h2⟩ := hI
  exact ⟨Nat.zero_le _, h2⟩

theorem sizeInv_stopAllResources (st : MState) (now : Nat) (hI : SizeInv st) :
    SizeInv (stopAllResources st now) := by
  obtain ⟨h1, h2⟩ := hI
  unfold stopAllResources
  split
  · exact ⟨h1, h2⟩
  · exact ⟨Nat.zero_le _, h2⟩

theorem sizeInv_stopPoolWatcher (st : MState) (hI : SizeInv st) :
    SizeInv (stopPoolWatcher st) := by
  obtain ⟨h1, h2⟩ := hI
  unfold stopPoolWatcher
  split
  · exact ⟨h1, h2⟩
  · exact ⟨h1, h2⟩

theorem sizeInv_shutdown (st : MState) (now : Nat) (hI : SizeInv st) :
    SizeInv (shutdown st now) := by
  unfold shutdown
  split
  · exact hI
  · exact sizeInv_stopAllResources _ now (sizeInv_stopPoolWatcher _ hI)

theorem sizeInv_processShutdown (st : MState) (now : Nat) (hI : SizeInv st) :
    SizeInv (processShutdown st now) := by
  unfold processShutdown
  split
  · exact hI
  · exact sizeInv_stopAllResources _ now (sizeInv_stopPoolWatcher _ hI)

theorem sizeInv_preWarm (st : MState) (hI : SizeInv st) :
    SizeInv (preWarm st) := by
  obtain ⟨h1, h2⟩ := hI
  unfold preWarm
  split
  · refine ⟨?_, h2⟩
    simpa using by omega
  · exact ⟨h1, h2⟩

theorem sizeInv_startPoolWatcher (st : MState) (hI : SizeInv st) :
    SizeInv (startPoolWatcher st) := by
  unfold startPoolWatcher
  split
  · exact hI
  · refine sizeInv_preWarm _ ?_
    unfold poolWatcherInstall
    split
    · exact hI
    · exact hI

theorem sizeInv_selectExistingProcess (st : MState) (now : Nat) (hI : SizeInv st) :
    SizeInv (selectExistingProcess st now).1 := by
  unfold selectExistingProcess
  split <;> rename_i st1 hsel heq
  case _ =>
    -- here `st1` is the state and `hsel` the selected handle
    have hst1 : SizeInv st1 := by
      have := sizeInv_selectFromPool st now hI
      rw [heq] at this
      exact this
    split
    · exact hst1
    · split
      rename_i st2 x heq2
      have hst2 : SizeInv st2 := by
        have := sizeInv_removeFromPool st1 hsel.name hst1
        rw [heq2] at this
        exact this
      split
      · exact hst2
      · exact hst2
  case _ =>
    have := sizeInv_selectFromPool st now hI
    rw [heq] at this
    exact this

theorem sizeInv_getOrCreate (st : MState) (sp : Option String) (now : Nat)
    (co : CreateOutcome) (hI : SizeInv st) :
    SizeInv (getOrCreateProcessInPool st sp now co).1 := by
  have hI1 : SizeInv (startPoolWatcher (updateLastRequestTime st now)) :=
    sizeInv_startPoolWatcher _ hI
  cases co with
  | ok h =>
      unfold getOrCreateProcessInPool
      split
      · exact hI
      split
      · exact hI
      dsimp only
      split
      · split
        · exact sizeInv_addToPool _ h ⟨hI1.1, hI1.2⟩
        · exact sizeInv_selectExistingProcess _ now ⟨hI1.1, hI1.2⟩
      · exact sizeInv_selectExistingProcess _ now hI1
  | fail =>
      unfold getOrCreateProcessInPool
      split
      · exact hI
      split
      · exact hI
      dsimp only
      split
      · exact sizeInv_selectExistingProcess _ now ⟨hI1.1, hI1.2⟩
      · exact sizeInv_selectExistingProcess _ now hI1

theorem sizeInv_applyOp (st : MState) (op : Op) (hI : SizeInv st) :
    SizeInv (applyOp st op) := by
  cases op with
  | add h => exact sizeInv_addToPool st h hI
  | remove n => exact sizeInv_removeFromPool st n hI
  | select now => exact sizeInv_selectFromPool st now hI
  | tick now => exact sizeInv_poolWatcherTick st now hI
  | health => exact sizeInv_healthCheck st hI
  | clear now => exact sizeInv_clearPool st now hI
  | shutdownOp now => exact sizeInv_shutdown st now hI
  | startWatcher => exact sizeInv_startPoolWatcher st hI
  | stopWatcher => exact sizeInv_stopPoolWatcher st hI
  | acquire sp now co => exact sizeInv_getOrCreate st sp now co hI
  | processShutdownOp now => exact sizeInv_processShutdown st now hI

theorem sizeInv_runOps (st : MState) (ops : List Op) (hI : SizeInv st) :
    SizeInv (runOps st ops) := by
  induction ops generalizing st with
  | nil => exact hI
  | cons op rest ih => exact ih _ (sizeInv_applyOp st op hI)

/-- The counter identity `hits + misses = requests`. -/
def CounterInv (st : MState) : Prop :=
  st.metrics.hits + st.metrics.misses = st.metrics.requests

theorem counterInv_initState (maxOpt minOpt intervalOpt now : Nat) :
    CounterInv (initState maxOpt minOpt intervalOpt now) := rfl

theorem counterInv_addToPool (st : MState) (h : Handle) (hC : CounterInv st) :
    CounterInv (addToPool st h).1 := by
  unfold addToPool
  split
  · exact hC
  · exact hC

theorem counterInv_removeFromPool (st : MState) (n : String) (hC : CounterInv st) :
    CounterInv (removeFromPool st n).1 := by
  unfold removeFromPool
  split
  · exact hC
  · exact hC

theorem counterInv_selectFromPool (st : MState) (now : Nat) (hC : CounterInv st) :
    CounterInv (selectFromPool st now).1 := by
  rw [selectFromPool_eq]
  unfold CounterInv at *
  split
  · simpa using by omega
  · simpa using by omega

theorem counterInv_poolWatcherTick (st : MState) (now : Nat) (hC : CounterInv st) :
    CounterInv (poolWatcherTick st now) := by
  unfold poolWatcherTick
  split
  · exact hC
  split
  · split
    · exact hC
    · exact hC
  · exact hC

theorem counterInv_healthCheck (st : MState) (hC : CounterInv st) :
    CounterInv (healthCheck st).1 := hC

theorem counterInv_clearPool (st : MState) (now : Nat) (hC : CounterInv st) :
    CounterInv (clearPool st now) := hC

theorem counterInv_stopAllResources (st : MState) (now : Nat) (hC : CounterInv st) :
    CounterInv (stopAllResources st now) := by
  unfold stopAllResources
  split
  · exact hC
  · exact hC

theorem counterInv_stopPoolWatcher (st : MState) (hC : CounterInv st) :
    CounterInv (stopPoolWatcher st) := by
  unfold stopPoolWatcher
  split
  · exact hC
  · exact hC

theorem counterInv_shutdown (st : MState) (now : Nat) (hC : CounterInv st) :
    CounterInv (shutdown st now) := by
  unfold shutdown
  split
  · exact hC
  · exact counterInv_stopAllResources _ now (counterInv_stopPoolWatcher _ hC)

theorem counterInv_processShutdown (st : MState) (now : Nat) (hC : CounterInv st) :
    CounterInv (processShutdown st now) := by
  unfold processShutdown
  split
  · exact hC
  · exact counterInv_stopAllResources _ now (counterInv_stopPoolWatcher _ hC)

theorem counterInv_preWarm (st : MState) (hC : CounterInv st) :
    CounterInv (preWarm st) := by
  unfold preWarm
  split
  · exact hC
  · exact hC

theorem counterInv_startPoolWatcher (st : MState) (hC : CounterInv st) :
    CounterInv (startPoolWatcher st) := by
  unfold startPoolWatcher
  split
  · exact hC
  · refine counterInv_preWarm _ ?_
    unfold poolWatcherInstall
    split
    · exact hC
    · exact hC

theorem counterInv_selectExistingProcess (st : MState) (now : Nat) (hC : CounterInv st) :
    CounterInv (selectExistingProcess st now).1 := by
  unfold selectExistingProcess
  split <;> rename_i st1 hsel heq
  case _ =>
    have hst1 : CounterInv st1 := by
      have := counterInv_selectFromPool st now hC
      rw [heq] at this
      exact this
    split
    · exact hst1
    · split
      rename_i st2 x heq2
      have hst2 : CounterInv st2 := by
        have := counterInv_removeFromPool st1 hsel.name hst1
        rw [heq2] at this
        exact this
      split
      · exact hst2
      · exact hst2
  case _ =>
    have := counterInv_selectFromPool st now hC
    rw [heq] at this
    exact this

theorem counterInv_getOrCreate (st : MState) (sp : Option String) (now : Nat)
    (co : CreateOutcome) (hC : CounterInv st) :
    CounterInv (getOrCreateProcessInPool st sp now co).1 := by
  have hC1 : CounterInv (startPoolWatcher (updateLastRequestTime st now)) :=
    counterInv_startPoolWatcher _ hC
  cases co with
  | ok h =>
      unfold getOrCreateProcessInPool
      split
      · exact hC
      split
      · exact hC
      dsimp only
      split
      · split
        · exact counterInv_addToPool _ h hC1
        · exact counterInv_selectExistingProcess _ now hC1
      · exact counterInv_selectExistingProcess _ now hC1
  | fail =>
      unfold getOrCreateProcessInPool
      split
      · exact hC
      split
      · exact hC
      dsimp only
      split
      · exact counterInv_selectExistingProcess _ now hC1
      · exact counterInv_selectExistingProcess _ now hC1

theorem counterInv_applyOp (st : MState) (op : Op) (hC : CounterInv st) :
    CounterInv (applyOp st op) := by
  cases op with
  | add h => exact counterInv_addToPool st h hC
  | remove n => exact counterInv_removeFromPool st n hC
  | select now => exact counterInv_selectFromPool st now hC
  | tick now => exact counterInv_poolWatcherTick st now hC
  | health => exact counterInv_healthCheck st hC
  | clear now => exact counterInv_clearPool st now hC
  | shutdownOp now => exact counterInv_shutdown st now hC
  | startWatcher => exact counterInv_startPoolWatcher st hC
  | stopWatcher => exact counterInv_stopPoolWatcher st hC
  | acquire sp now co => exact counterInv_getOrCreate st sp now co hC
  | processShutdownOp now => exact counterInv_processShutdown st now hC

theorem counterInv_runOps (st : MState) (ops : List Op) (hC : CounterInv st) :
    CounterInv (runOps st ops) := by
  induction ops generalizing st with
  | nil => exact hC
  | cons op rest ih => exact ih _ (counterInv_applyOp st op hC)

/-- The label block of `getPrometheusMetrics`:
`{resource_type="<tag>",manager="<ManagerName>"}`, where the tag comes
from `getResourceType()` and the manager name from `constructor.name`. -/
def promLabels (tag mgr : String) : String :=
  "\x7bresource_type=\"" ++ tag ++ "\",manager=\"" ++ mgr ++ "\"\x7d"

/-- The `addMetric` helper inside `getPrometheusMetrics`: a HELP line, a
TYPE line, and a labelled value line for one metric. -/
def addMetricLines (pfx labels name help ty : String) (value : Nat) : List String :=
  let metricName := pfx ++ "_" ++ name
  ["# HELP " ++ metricName ++ " " ++ help,
   "# TYPE " ++ metricName ++ " " ++ ty,
   metricName ++ labels ++ " " ++ toString value]

/-- The lines of `getPrometheusMetrics()`: six counters and the pool-size
gauge, prefixed `serverless_manager_pool`. -/
def prometheusLines (st : MState) (tag mgr : String) : List String :=
  let labels := promLabels tag mgr
  let pfx := "serverless_manager_pool"
  addMetricLines pfx labels "requests_total"
    "Total number of pool acquisition requests" "counter" st.metrics.requests
  ++ addMetricLines pfx labels "hits_total"
    "Total number of successful pool hits" "counter" st.metrics.hits
  ++ addMetricLines pfx labels "misses_total"
    "Total number of pool misses" "counter" st.metrics.misses
  ++ addMetricLines pfx labels "additions_total"
    "Total number of resources added to pool" "counter" st.metrics.additions
  ++ addMetricLines pfx labels "evictions_total"
    "Total number of idle resources evicted" "counter" st.metrics.evictions
  ++ addMetricLines pfx labels "removals_total"
    "Total number of resources removed from pool" "counter" st.metrics.removals
  ++ addMetricLines pfx labels "size"
    "Current number of resources in pool" "gauge" st.pool.length

/-- `getPrometheusMetrics()` joins the lines with newlines. -/
def getPrometheusMetrics (st : MState) (tag mgr : String) : String :=
  String.intercalate "\n" (prometheusLines st tag mgr)

/-! Claim theorems. -/

/-- C1: pool-size bound invariant.  For every sequence of engine
operations starting from a freshly constructed manager,
`0 ≤ |pool| ≤ maxPoolSize` holds at every quiescent observation (the
lower bound is inherent to `Nat`), and `addToPool` admits a handle
exactly when `|pool| < maxPoolSize`, returning `false` and leaving the
state unchanged otherwise. -/
theorem C1_pool_size_bound (maxOpt minOpt intervalOpt now : Nat) (ops : List Op) :
    let st := runOps (initState maxOpt minOpt intervalOpt now) ops
    st.pool.length ≤ st.maxPoolSize ∧
    (∀ h : Handle,
      ((addToPool st h).2 = true ↔ st.pool.length < st.maxPoolSize) ∧
      ((addToPool st h).2 = false → (addToPool st h).1 = st)) := by
  intro st
  have hI : SizeInv st := sizeInv_runOps _ ops (sizeInv_initState maxOpt minOpt intervalOpt now)
  refine ⟨hI.1, fun h => ⟨?_, ?_⟩⟩
  · unfold addToPool
    split
    · rename_i hc; simpa using hc
    · rename_i hc; simpa using hc
  · unfold addToPool
    split
    · simp
    · intro _; rfl

/-- Four additions against the default bound of 3: the fourth is refused. -/
def fullOps : List Op :=
  [.add ⟨"a", 1, true⟩, .add ⟨"b", 2, true⟩, .add ⟨"c", 3, true⟩, .add ⟨"d", 4, true⟩]

/-- C1 witness: the bound and the refused admission at a concrete full pool. -/
theorem C1_pool_size_bound_witness :
    (runOps (initState 0 0 0 0) fullOps).pool.length ≤
      (runOps (initState 0 0 0 0) fullOps).maxPoolSize ∧
    (addToPool (runOps (initState 0 0 0 0) fullOps) ⟨"e", 5, true⟩).1 =
      runOps (initState 0 0 0 0) fullOps := by
  have hC := C1_pool_size_bound 0 0 0 0 fullOps
  exact ⟨hC.1, (hC.2 ⟨"e", 5, true⟩).2 (by decide)⟩

/-- C2: round-robin selection.  Every `selectFromPool` bumps `requests`;
on an empty pool it bumps `misses` and yields `none`; on a pool of `n`
handles it bumps `hits` and yields the handle at index
`floor(now_ms / 1000) % n`.  In particular with pool `[A, B, C]` it
yields `C` at second 2000 and `A` at second 2001. -/
theorem C2_round_robin_selection (st : MState) (now : Nat) :
    ((selectFromPool st now).1.metrics.requests = st.metrics.requests + 1 ∧
     (if st.pool.length = 0 then
        (selectFromPool st now).2 = none ∧
        (selectFromPool st now).1.metrics.misses = st.metrics.misses + 1 ∧
        (selectFromPool st now).1.metrics.hits = st.metrics.hits
      else
        (selectFromPool st now).2 = st.pool[(now / 1000) % st.pool.length]? ∧
        (selectFromPool st now).1.metrics.hits = st.metrics.hits + 1 ∧
        (selectFromPool st now).1.metrics.misses = st.metrics.misses)) ∧
    (selectFromPool { initState 0 0 0 0 with
        pool := [⟨"A", 8001, true⟩, ⟨"B", 8002, true⟩, ⟨"C", 8003, true⟩] } 2000000).2 =
      some ⟨"C", 8003, true⟩ ∧
    (selectFromPool { initState 0 0 0 0 with
        pool := [⟨"A", 8001, true⟩, ⟨"B", 8002, true⟩, ⟨"C", 8003, true⟩] } 2001000).2 =
      some ⟨"A", 8001, true⟩ := by
  refine ⟨⟨?_, ?_⟩, by decide, by decide⟩
  · rw [selectFromPool_eq]
    split <;> rfl
  · rw [selectFromPool_eq]
    split
    · rename_i hc
      simp [hc]
    · rename_i hc
      simp [hc]

/-- C6: idle-eviction step.  On a tick with `shuttingDown` false, a
non-empty pool and `now - lastRequestTime > poolCheckInterval`, exactly
the oldest handle is shifted off, `evictions` is bumped by one, the
handle is terminated, and every other field (in particular `removals`)
is untouched; on any other tick the state is unchanged. -/
theorem C6_idle_eviction_tick (st : MState) (now : Nat) (r : Handle) (rest : List Handle) :
    (st.isShuttingDown = false → st.pool = r :: rest →
      st.poolCheckInterval < now - st.lastRequestTime →
      poolWatcherTick st now =
        { st with
            pool := rest,
            metrics := ⟨st.metrics.requests, st.metrics.hits, st.metrics.misses,
              st.metrics.additions, st.metrics.evictions + 1, st.metrics.removals⟩,
            terminated := st.terminated ++ [r] }) ∧
    ((st.isShuttingDown = true ∨ st.pool = [] ∨
        now - st.lastRequestTime ≤ st.poolCheckInterval) →
      poolWatcherTick st now = st) := by
  constructor
  · intro h1 h2 h3
    unfold poolWatcherTick
    rw [h2]
    simp [h1, h3]
  · intro h
    unfold poolWatcherTick
    rcases h with h | h | h
    · simp [h]
    · simp [h]
    · have hn : ¬ (st.poolCheckInterval < now - st.lastRequestTime) := by omega
      simp [hn]

/-- C6 witness: a concrete eviction tick and a concrete no-op tick. -/
theorem C6_idle_eviction_tick_witness :
    (poolWatcherTick { initState 0 0 1000 0 with pool := [⟨"X", 8001, true⟩] } 30000 =
      { initState 0 0 1000 0 with
          pool := [],
          metrics := ⟨0, 0, 0, 0, 1, 0⟩,
          terminated := [⟨"X", 8001, true⟩] }) ∧
    (poolWatcherTick { initState 0 0 1000 0 with pool := [⟨"X", 8001, true⟩] } 500 =
      { initState 0 0 1000 0 with pool := [⟨"X", 8001, true⟩] }) := by
  constructor
  · exact (C6_idle_eviction_tick
      { initState 0 0 1000 0 with pool := [⟨"X", 8001, true⟩] } 30000
      ⟨"X", 8001, true⟩ []).1 (by decide) (by decide) (by decide)
  · exact (C6_idle_eviction_tick
      { initState 0 0 1000 0 with pool := [⟨"X", 8001, true⟩] } 500
      ⟨"X", 8001, true⟩ []).2 (Or.inr (Or.inr (by decide)))

/-- C7: counter identity.  `hits + misses = requests` after every
sequence of engine operations from a fresh manager. -/
theorem C7_counter_identity (maxOpt minOpt intervalOpt now : Nat) (ops : List Op) :
    (runOps (initState maxOpt minOpt intervalOpt now) ops).metrics.hits +
      (runOps (initState maxOpt minOpt intervalOpt now) ops).metrics.misses =
      (runOps (initState maxOpt minOpt intervalOpt now) ops).metrics.requests :=
  counterInv_runOps _ ops (counterInv_initState maxOpt minOpt intervalOpt now)

/-- C10: `healthCheck` removes dead handles by direct splice, so the
whole metrics record (in particular `removals` and `evictions`) is
unchanged; only pool membership and the returned counts change. -/
theorem C10_healthCheck_frame (st : MState) :
    (healthCheck st).1 = { st with pool := st.pool.filter (fun r => r.alive) } ∧
    (healthCheck st).1.metrics = st.metrics ∧
    (healthCheck st).1.metrics.removals = st.metrics.removals ∧
    (healthCheck st).1.metrics.evictions = st.metrics.evictions ∧
    (healthCheck st).2.total = (st.pool.filter (fun r => r.alive)).length ∧
    (healthCheck st).2.deadRemoved = (st.pool.filter (fun r => !r.alive)).length ∧
    (healthCheck st).2.healthy =
      ((st.pool.filter (fun r => r.alive)).length > 0 || !st.isShuttingDown) :=
  ⟨rfl, rfl, rfl, rfl, rfl, rfl, rfl⟩

/-- A manager that has already begun shutting down (flag set, pool
drained), as left behind by `shutdown`; used to exhibit a late
`addToPool`. -/
def lateAddState : MState :=
  { initState 0 0 0 0 with isShuttingDown := true }

/-- C3 counterexample: `addToPool` never consults `isShuttingDown`, so an
`addToPool` performed while the flag is set (a creation already in flight
when `shutdown` ran) admits its handle whenever the pool has room. -/
theorem C3_counterexample :
    lateAddState.isShuttingDown = true ∧
    (addToPool lateAddState ⟨"late", 9000, true⟩).2 = true ∧
    (addToPool lateAddState ⟨"late", 9000, true⟩).1.pool = [⟨"late", 9000, true⟩] := by
  decide

/-- C3 (amended): admission during shutdown is prevented only at the
entry of the acquire path: `getOrCreateProcessInPool` called with
`isShuttingDown` set fails `shuttingDown` and leaves the state untouched,
but `addToPool` itself does not consult the flag, so a creation already
in flight when the flag was set still admits its handle when the pool has
room (see the counterexample). -/
theorem C3_acquire_entry_guard (st : MState) (sp : Option String) (now : Nat)
    (co : CreateOutcome) (hsd : st.isShuttingDown = true) :
    getOrCreateProcessInPool st sp now co = (st, .error .shuttingDown) := by
  unfold getOrCreateProcessInPool
  simp [hsd]

/-- C3 witness: the entry guard at a concrete shutting-down state. -/
theorem C3_acquire_entry_guard_witness :
    getOrCreateProcessInPool lateAddState (some "app.js") 5 .fail =
      (lateAddState, .error .shuttingDown) :=
  C3_acquire_entry_guard lateAddState (some "app.js") 5 .fail rfl

/-- A running manager with one pooled handle and a started watcher, about
to be shut down. -/
def runningState : MState :=
  (addToPool (startPoolWatcher (initState 0 0 0 0)) ⟨"p1", 8001, true⟩).1

/-- C4 counterexample: `ProcessManager.shutdown` (the override) reaches
the drained post-state but never invokes the `onShutdown` hook, so the
hook count stays 0 instead of 1. -/
theorem C4_counterexample :
    runningState.isShuttingDown = false ∧
    (processShutdown runningState 99).isShuttingDown = true ∧
    (processShutdown runningState 99).pool = [] ∧
    (processShutdown runningState 99).onShutdownCalls = 0 := by
  decide

/-- C4 (amended): a first `shutdown` on the base manager drains the pool,
cancels the eviction timer, detaches the signal handlers, sets
`shuttingDown` and invokes `onShutdown` exactly once; the ProcessManager
override reaches the same post-state but leaves the `onShutdown` call
count unchanged. -/
theorem C4_shutdown_post (st : MState) (now : Nat) (h : st.isShuttingDown = false) :
    (shutdown st now).pool = [] ∧
    (shutdown st now).watcherInterval = false ∧
    (shutdown st now).signalHandlersAttached = false ∧
    (shutdown st now).isShuttingDown = true ∧
    (shutdown st now).onShutdownCalls = st.onShutdownCalls + 1 ∧
    (processShutdown st now).pool = [] ∧
    (processShutdown st now).watcherInterval = false ∧
    (processShutdown st now).signalHandlersAttached = false ∧
    (processShutdown st now).isShuttingDown = true ∧
    (processShutdown st now).onShutdownCalls = st.onShutdownCalls := by
  unfold shutdown processShutdown stopAllResources stopPoolWatcher clearPool
  simp only [h]
  split_ifs <;> simp_all [List.length_eq_zero]

/-- C4 witness: both shutdowns at a concrete running manager. -/
theorem C4_shutdown_post_witness :
    (shutdown runningState 99).pool = [] ∧
    (shutdown runningState 99).watcherInterval = false ∧
    (shutdown runningState 99).signalHandlersAttached = false ∧
    (shutdown runningState 99).isShuttingDown = true ∧
    (shutdown runningState 99).onShutdownCalls = runningState.onShutdownCalls + 1 ∧
    (processShutdown runningState 99).pool = [] ∧
    (processShutdown runningState 99).watcherInterval = false ∧
    (processShutdown runningState 99).signalHandlersAttached = false ∧
    (processShutdown runningState 99).isShuttingDown = true ∧
    (processShutdown runningState 99).onShutdownCalls = runningState.onShutdownCalls :=
  C4_shutdown_post runningState 99 (by decide)

/-- `startPoolWatcher()` called `n` times in a row. -/
def iterStartPoolWatcher (st : MState) : Nat → MState
  | 0 => st
  | n + 1 => iterStartPoolWatcher (startPoolWatcher st) n

theorem startPoolWatcher_of_started (st : MState) (h : st.watcherStarted = true) :
    startPoolWatcher st = st := by
  unfold startPoolWatcher
  simp [h]

theorem startPoolWatcher_started (st : MState) :
    (startPoolWatcher st).watcherStarted = true := by
  unfold startPoolWatcher poolWatcherInstall preWarm
  split_ifs <;> simp_all

theorem iterStartPoolWatcher_of_started (st : MState) (h : st.watcherStarted = true) :
    ∀ n, iterStartPoolWatcher st n = st := by
  intro n
  induction n with
  | zero => rfl
  | succ k ih =>
      show iterStartPoolWatcher (startPoolWatcher st) k = st
      rw [startPoolWatcher_of_started st h]
      exact ih

theorem iterStartPoolWatcher_eq_first (st : MState) (n : Nat) :
    iterStartPoolWatcher st (n + 1) = startPoolWatcher st := by
  show iterStartPoolWatcher (startPoolWatcher st) n = startPoolWatcher st
  exact iterStartPoolWatcher_of_started _ (startPoolWatcher_started st) n

/-- C5: `startPoolWatcher` idempotence and pre-warming.  `N ≥ 1` calls on
a fresh manager create exactly one eviction timer, and the first call
brings the pool from empty up to `minPoolSize` through the adapter create
path (`createCalls` counts them).  The pre-warming step itself is
modelled from the spec (see `preWarm`). -/
theorem C5_startPoolWatcher_idempotent (maxOpt minOpt intervalOpt now N : Nat)
    (hN : 1 ≤ N) :
    (iterStartPoolWatcher (initState maxOpt minOpt intervalOpt now) N).timersCreated = 1 ∧
    (iterStartPoolWatcher (initState maxOpt minOpt intervalOpt now) N).pool.length =
      (initState maxOpt minOpt intervalOpt now).minPoolSize ∧
    (iterStartPoolWatcher (initState maxOpt minOpt intervalOpt now) N).createCalls =
      (initState maxOpt minOpt intervalOpt now).minPoolSize := by
  obtain ⟨n, rfl⟩ : ∃ n, N = n + 1 := ⟨N - 1, by omega⟩
  rw [iterStartPoolWatcher_eq_first]
  unfold startPoolWatcher poolWatcherInstall preWarm initState
  simp only [orDefault]
  split_ifs <;> simp_all

/-- C5 witness: two calls on a fresh manager with `minPoolSize = 2`. -/
theorem C5_startPoolWatcher_idempotent_witness :
    (iterStartPoolWatcher (initState 5 2 0 0) 2).timersCreated = 1 ∧
    (iterStartPoolWatcher (initState 5 2 0 0) 2).pool.length =
      (initState 5 2 0 0).minPoolSize ∧
    (iterStartPoolWatcher (initState 5 2 0 0) 2).createCalls =
      (initState 5 2 0 0).minPoolSize :=
  C5_startPoolWatcher_idempotent 5 2 0 0 2 (by decide)

theorem selectExistingProcess_empty (st : MState) (now : Nat) (h : st.pool = []) :
    selectExistingProcess st now =
      ({ st with metrics := ⟨st.metrics.requests + 1, st.metrics.hits,
          st.metrics.misses + 1, st.metrics.additions, st.metrics.evictions,
          st.metrics.removals⟩ }, .error .noResource) := by
  unfold selectExistingProcess
  rw [selectFromPool_eq]
  simp [h]

/-- C8: zero-capacity boundary.  With `maxPoolSize = 0` (hence an empty
pool and a zero pre-warm target), a valid acquire that is not shutting
down fails `noResource`, never invokes the adapter create path, and bumps
`requests` and `misses` by one. -/
theorem C8_zero_capacity (st : MState) (sp : Option String) (now : Nat) (co : CreateOutcome)
    (hmax : st.maxPoolSize = 0) (hmin : st.minPoolSize = 0) (hpool : st.pool = [])
    (hsd : st.isShuttingDown = false) (hsp : sp ≠ none) :
    (getOrCreateProcessInPool st sp now co).2 = .error .noResource ∧
    (getOrCreateProcessInPool st sp now co).1.createCalls = st.createCalls ∧
    (getOrCreateProcessInPool st sp now co).1.metrics.requests = st.metrics.requests + 1 ∧
    (getOrCreateProcessInPool st sp now co).1.metrics.misses = st.metrics.misses + 1 := by
  have h1 : (startPoolWatcher (updateLastRequestTime st now)).pool = [] := by
    unfold startPoolWatcher poolWatcherInstall preWarm updateLastRequestTime
    split_ifs <;> simp_all
  have h2 : (startPoolWatcher (updateLastRequestTime st now)).createCalls = st.createCalls := by
    unfold startPoolWatcher poolWatcherInstall preWarm updateLastRequestTime
    split_ifs <;> simp_all
  have h3 : (startPoolWatcher (updateLastRequestTime st now)).metrics = st.metrics := by
    unfold startPoolWatcher poolWatcherInstall preWarm updateLastRequestTime
    split_ifs <;> simp_all
  have h4 : (startPoolWatcher (updateLastRequestTime st now)).maxPoolSize = 0 := by
    unfold startPoolWatcher poolWatcherInstall preWarm updateLastRequestTime
    split_ifs <;> simp_all
  have hmain : getOrCreateProcessInPool st sp now co =
      selectExistingProcess (startPoolWatcher (updateLastRequestTime st now)) now := by
    unfold getOrCreateProcessInPool
    simp [hsd, hsp, canCreateNewResource, h1, h4]
  rw [hmain, selectExistingProcess_empty _ now h1]
  refine ⟨rfl, ?_, ?_, ?_⟩ <;> simp [h2, h3]

/-- C8 witness: a concrete zero-capacity manager. -/
theorem C8_zero_capacity_witness :
    (getOrCreateProcessInPool
        { initState 1 0 0 0 with maxPoolSize := 0 } (some "app.js") 7 .fail).2 =
      .error .noResource ∧
    (getOrCreateProcessInPool
        { initState 1 0 0 0 with maxPoolSize := 0 } (some "app.js") 7 .fail).1.createCalls =
      ({ initState 1 0 0 0 with maxPoolSize := 0 } : MState).createCalls ∧
    (getOrCreateProcessInPool
        { initState 1 0 0 0 with maxPoolSize := 0 } (some "app.js") 7 .fail).1.metrics.requests =
      ({ initState 1 0 0 0 with maxPoolSize := 0 } : MState).metrics.requests + 1 ∧
    (getOrCreateProcessInPool
        { initState 1 0 0 0 with maxPoolSize := 0 } (some "app.js") 7 .fail).1.metrics.misses =
      ({ initState 1 0 0 0 with maxPoolSize := 0 } : MState).metrics.misses + 1 :=
  C8_zero_capacity { initState 1 0 0 0 with maxPoolSize := 0 } (some "app.js") 7 .fail
    rfl rfl rfl rfl (by simp)

/-- The metrics-exposition scenario: from a fresh manager run
`addToPool(h)`, `selectFromPool`, `removeFromPool(h.name)`,
`selectFromPool`. -/
def expositionState (h : Handle) (t1 t2 : Nat) : MState :=
  (selectFromPool
    ((removeFromPool
      ((selectFromPool ((addToPool (initState 0 0 0 0) h).1) t1).1) h.name).1) t2).1

theorem expositionState_metrics (h : Handle) (t1 t2 : Nat) :
    (expositionState h t1 t2).metrics = ⟨2, 1, 1, 1, 0, 1⟩ ∧
    (expositionState h t1 t2).pool = [] := by
  have e2 : ((selectFromPool ((addToPool (initState 0 0 0 0) h).1) t1).1) =
      { initState 0 0 0 0 with pool := [h], metrics := ⟨1, 1, 0, 1, 0, 0⟩ } := by
    rw [selectFromPool_eq]
    rfl
  have key : (removeFromPool
      ((selectFromPool ((addToPool (initState 0 0 0 0) h).1) t1).1) h.name).1 =
      { initState 0 0 0 0 with pool := [], metrics := ⟨1, 1, 0, 1, 0, 1⟩ } := by
    rw [e2]
    unfold removeFromPool
    simp [List.findIdx?]
  unfold expositionState
  rw [key, selectFromPool_eq]
  constructor
  · rfl
  · rfl

/-- C9: metrics exposition.  After `addToPool(h)`, `selectFromPool`,
`removeFromPool(h.name)`, `selectFromPool` on a fresh manager, the
Prometheus text (the newline-join of `prometheusLines`) carries, for each
metric name, a HELP line, a TYPE line and a value line labelled
`resource_type="<tag>",manager="<ManagerName>"`, with values
requests=2, hits=1, misses=1, additions=1, evictions=0, removals=1,
size=0. -/
theorem C9_metrics_exposition (h : Handle) (t1 t2 : Nat) (tag mgr : String) :
    getPrometheusMetrics (expositionState h t1 t2) tag mgr =
      String.intercalate "\n" (prometheusLines (expositionState h t1 t2) tag mgr) ∧
    ("# HELP serverless_manager_pool_requests_total Total number of pool acquisition requests"
      ∈ prometheusLines (expositionState h t1 t2) tag mgr) ∧
    ("# TYPE serverless_manager_pool_requests_total counter"
      ∈ prometheusLines (expositionState h t1 t2) tag mgr) ∧
    ("serverless_manager_pool_requests_total" ++ promLabels tag mgr ++ " " ++ toString 2
      ∈ prometheusLines (expositionState h t1 t2) tag mgr) ∧
    ("# HELP serverless_manager_pool_hits_total Total number of successful pool hits"
      ∈ prometheusLines (expositionState h t1 t2) tag mgr) ∧
    ("# TYPE serverless_manager_pool_hits_total counter"
      ∈ prometheusLines (expositionState h t1 t2) tag mgr) ∧
    ("serverless_manager_pool_hits_total" ++ promLabels tag mgr ++ " " ++ toString 1
      ∈ prometheusLines (expositionState h t1 t2) tag mgr) ∧
    ("# HELP serverless_manager_pool_misses_total Total number of pool misses"
      ∈ prometheusLines (expositionState h t1 t2) tag mgr) ∧
    ("# TYPE serverless_manager_pool_misses_total counter"
      ∈ prometheusLines (expositionState h t1 t2) tag mgr) ∧
    ("serverless_manager_pool_misses_total" ++ promLabels tag mgr ++ " " ++ toString 1
      ∈ prometheusLines (expositionState h t1 t2) tag mgr) ∧
    ("# HELP serverless_manager_pool_additions_total Total number of resources added to pool"
      ∈ prometheusLines (expositionState h t1 t2) tag mgr) ∧
    ("# TYPE serverless_manager_pool_additions_total counter"
      ∈ prometheusLines (expositionState h t1 t2) tag mgr) ∧
    ("serverless_manager_pool_additions_total" ++ promLabels tag mgr ++ " " ++ toString 1
      ∈ prometheusLines (expositionState h t1 t2) tag mgr) ∧
    ("# HELP serverless_manager_pool_evictions_total Total number of idle resources evicted"
      ∈ prometheusLines (expositionState h t1 t2) tag mgr) ∧
    ("# TYPE serverless_manager_pool_evictions_total counter"
      ∈ prometheusLines (expositionState h t1 t2) tag mgr) ∧
    ("serverless_manager_pool_evictions_total" ++ promLabels tag mgr ++ " " ++ toString 0
      ∈ prometheusLines (expositionState h t1 t2) tag mgr) ∧
    ("# HELP serverless_manager_pool_removals_total Total number of resources removed from pool"
      ∈ prometheusLines (expositionState h t1 t2) tag mgr) ∧
    ("# TYPE serverless_manager_pool_removals_total counter"
      ∈ prometheusLines (expositionState h t1 t2) tag mgr) ∧
    ("serverless_manager_pool_removals_total" ++ promLabels tag mgr ++ " " ++ toString 1
      ∈ prometheusLines (expositionState h t1 t2) tag mgr) ∧
    ("# HELP serverless_manager_pool_size Current number of resources in pool"
      ∈ prometheusLines (expositionState h t1 t2) tag mgr) ∧
    ("# TYPE serverless_manager_pool_size gauge"
      ∈ prometheusLines (expositionState h t1 t2) tag mgr) ∧
    ("serverless_manager_pool_size" ++ promLabels tag mgr ++ " " ++ toString 0
      ∈ prometheusLines (expositionState h t1 t2) tag mgr) := by
  obtain ⟨hm, hp⟩ := expositionState_metrics h t1 t2
  refine ⟨rfl, ?_, ?_, ?_, ?_, ?_, ?_, ?_, ?_, ?_, ?_, ?_, ?_, ?_, ?_, ?_, ?_, ?_, ?_,
    ?_, ?_, ?_⟩ <;>
    simp [prometheusLines, addMetricLines, hm, hp]

end ServerlessManagers
